import Mathlib

/-!
Verification of the payment-service-demo incident/runbook state machine.

This file shallowly embeds the core of `src/app/main.py`: the mutable
`ServiceState` aggregate, its log ring buffer, the background log generator,
the five-phase runbook executor, and the trigger/reset/read endpoints.

Conventions of the embedding:
- Wall-clock reads (`time.time()`) become explicit rational parameters; the
  formatted timestamps produced by `datetime.utcnow().strftime(...)` become
  opaque string parameters supplied by the caller at each clock read.
- Python `random.choice(l)` becomes `pyChoice l r` where the natural number
  `r` is the random draw, reduced modulo the list length.
- Python's builtin `round` (round-half-to-even, returning an int) is
  modelled by `pyRound` on rationals.
- Mutation of the shared singleton becomes explicit state passing: a handler
  of the source with ambient state `state` becomes a function
  `ServiceState -> ... -> ServiceState × Response`.
- Code that would raise an exception (subtracting `None` timestamps) returns
  `none`.
- Concurrency (background threads) is modelled further below by an
  interleaved event semantics `stepFn` over a system state `Sys`, with
  atomic blocks delimited by the `time.sleep` calls of the source, which are
  the points where the source threads yield for macroscopic durations.
-/

set_option autoImplicit false

namespace PaymentService

/-- A log record as built by `ServiceState._add_log`: formatted timestamp,
level and message. -/
structure LogEntry where
  timestamp : String
  level : String
  message : String
deriving Repr, DecidableEq

/-- A runbook step record `{step, status, ts}` with the optional `detail`
field added by the root-cause-analysis phase. -/
structure RunbookStep where
  step : String
  status : String
  ts : String
  detail : Option String := none
deriving Repr, DecidableEq

/-- The mutable `ServiceState` aggregate of the source. -/
structure ServiceState where
  status : String
  chaos_mode : Option String
  started_at : ℚ
  incident_started_at : Option ℚ
  incident_resolved_at : Option ℚ
  runbook_steps : List RunbookStep
  runbook_running : Bool
  logs : List LogEntry
  payment_counter : Nat
deriving Repr, DecidableEq

/-- Python list slicing `l[-n:]` for positive `n`: the last `n` elements
(all of them when the list is shorter). -/
def lastN {α : Type} (n : Nat) (l : List α) : List α :=
  l.drop (l.length - n)

/-- `ServiceState._add_log`: append an entry, then truncate to the last 50
entries when the buffer exceeds 50 (`self.logs = self.logs[-50:]`).
The first string argument is the formatted clock read made inside the
method. -/
def ServiceState._add_log (s : ServiceState) (ts level message : String) :
    ServiceState :=
  let logs := s.logs ++ [⟨ts, level, message⟩]
  { s with logs := if logs.length > 50 then lastN 50 logs else logs }

/-- `ServiceState.add_log`: public wrapper around `_add_log`. -/
def ServiceState.add_log (s : ServiceState) (ts level message : String) :
    ServiceState :=
  s._add_log ts level message

/-- `ServiceState.reset` / `__init__`: the freshly reinitialized state, as a
function of the clock reads made during it (`time.time()` for `started_at`
and the three seed-log timestamps). It does not depend on the previous
state. -/
def resetState (now : ℚ) (ts1 ts2 ts3 : String) : ServiceState :=
  let s : ServiceState :=
    { status := "healthy"
      chaos_mode := none
      started_at := now
      incident_started_at := none
      incident_resolved_at := none
      runbook_steps := []
      runbook_running := false
      logs := []
      payment_counter := 0 }
  let s := s._add_log ts1 "INFO" "payment-service started successfully"
  let s := s._add_log ts2 "INFO" "Connected to database pool (max: 100 connections)"
  s._add_log ts3 "INFO" "Listening on :8080"

/-- The `reset` method: reinitializes every field in place, ignoring the
previous contents. -/
def ServiceState.reset (_self : ServiceState) (now : ℚ) (ts1 ts2 ts3 : String) :
    ServiceState :=
  resetState now ts1 ts2 ts3

/-- Python `round` on a rational: round half to even, returning an integer.
`Rat.floor` is the largest integer at most `q`. -/
def pyRound (q : ℚ) : ℤ :=
  if q - q.floor < 1/2 then q.floor
  else if q - q.floor > 1/2 then q.floor + 1
  else if q.floor % 2 = 0 then q.floor else q.floor + 1

/-- Python `str()` applied to an `Optional[str]` (as in the f-string
interpolation of `state.chaos_mode`): `None` prints as "None". -/
def pyStr : Option String → String
  | none => "None"
  | some s => s

/-- Python truthiness of an `Optional[float]`: `None` and `0.0` are falsy. -/
def truthyTime : Option ℚ → Bool
  | none => false
  | some q => decide (q ≠ 0)

/-- `random.choice l` with the random draw `r` made explicit. -/
def pyChoice {α : Type} (l : List α) (r : Nat) (d : α) : α :=
  l.getD (r % l.length) d

/-- The fixed candidate payment amounts of `log_generator`. -/
def amounts : List Nat := [44, 88, 99, 142, 176, 210, 255, 304, 89, 133, 67, 198]

/-- The connection-pool-exhaustion message catalog of `log_generator`. -/
def connectionPoolMsgs : List String :=
  [ "ERROR: Connection pool exhausted (100/100 connections in use)"
  , "WARN: Retry 3/3 failed — no connections available"
  , "ERROR: DB timeout after 30s — connection pool saturated"
  , "ERROR: Payment rejected — cannot acquire DB connection"
  , "WARN: Queue depth: 847 pending requests" ]

/-- The timeout/circuit-breaker message catalog of `log_generator`. -/
def timeoutMsgs : List String :=
  [ "ERROR: Request timeout after 30000ms"
  , "WARN: Downstream service not responding"
  , "ERROR: Circuit breaker OPEN — payment-service"
  , "ERROR: Health probe failed (3/3 retries)" ]

/-- The crash/panic message catalog of `log_generator` (the `else` branch,
used for `random_crash` and for any other chaos mode). -/
def crashMsgs : List String :=
  [ "FATAL: Unexpected panic in payment handler"
  , "ERROR: nil pointer dereference at payment.go:142"
  , "ERROR: Service crashed — restarting (attempt 1/3)"
  , "ERROR: Restart failed — still crashing" ]

/-- The `if/elif/else` catalog selection of `log_generator` when the service
is unhealthy, keyed on `state.chaos_mode`. -/
def catalogFor (c : Option String) : List String :=
  if c = some "connection_pool" then connectionPoolMsgs
  else if c = some "timeout" then timeoutMsgs
  else crashMsgs

/-- The healthy-tick message `f"Payment processed OK — ${amount} (txn
#{state.payment_counter + 1000})"`. -/
def payMsg (amount : Nat) (counter : Nat) : String :=
  "Payment processed OK — $" ++ toString amount ++
    " (txn #" ++ toString (counter + 1000) ++ ")"

/-- One firing of the `log_generator` loop body (after its sleep), with the
clock read `ts` and the random draw `r` made explicit. -/
def log_generator_tick (s : ServiceState) (ts : String) (r : Nat) :
    ServiceState :=
  if s.status = "healthy" then
    let amount := pyChoice amounts r 0
    let s := s.add_log ts "INFO" (payMsg amount s.payment_counter)
    { s with payment_counter := s.payment_counter + 1 }
  else if s.status = "unhealthy" then
    s.add_log ts "ERROR" (pyChoice (catalogFor s.chaos_mode) r "")
  else s

/-- The fixed `RUNBOOK_STEPS` labels. -/
def RUNBOOK_STEPS : List String :=
  [ "🔍 Health check → UNHEALTHY detected"
  , "📋 Fetching logs & analyzing root cause"
  , "🔄 Restarting service"
  , "✅ Verifying recovery"
  , "📨 Notifying team — incident report sent" ]

/-- Label of runbook step `i`. -/
def stepName (i : Nat) : String := RUNBOOK_STEPS.getD i ""

/-- Update the last element of a list in place (the Python code mutates the
`step` dict it has just appended to `runbook_steps`). -/
def updLast {α : Type} (f : α → α) : List α → List α
  | [] => []
  | [x] => [f x]
  | x :: y :: xs => x :: updLast f (y :: xs)

/-- The root-cause dictionary lookup of the analysis phase:
`{...}.get(state.chaos_mode, "Unknown error")`. -/
def rcLookup (c : Option String) : String :=
  if c = some "connection_pool" then "Connection pool exhausted (100/100)"
  else if c = some "timeout" then "Downstream timeout — circuit breaker tripped"
  else if c = some "random_crash" then "Nil pointer dereference in payment handler"
  else "Unknown error"

/-!
`run_runbook` is cut into the atomic blocks delimited by its `time.sleep`
calls; the sequential function `run_runbook` below is their composition, and
the concurrent semantics interleaves them. Each block takes the formatted
clock reads it performs (`tl` for the log entry, `ts` for the appended step
record); the restart block additionally takes the `time.time()` read `rt`.
-/

/-- Runbook entry up to the first sleep: set `runbook_running`, clear
`runbook_steps`, log the trigger message, append step 0 as running. -/
def block0 (s : ServiceState) (tl ts : String) : ServiceState :=
  let s := { s with runbook_running := true, runbook_steps := [] }
  let s := s.add_log tl "INFO" "🤖 Runbook triggered automatically"
  { s with runbook_steps := s.runbook_steps ++ [⟨stepName 0, "running", ts, none⟩] }

/-- After phase 0's sleep: mark step 0 done, log, append step 1 as running. -/
def block1 (s : ServiceState) (tl ts : String) : ServiceState :=
  let done := updLast (fun st => { st with status := "done" }) s.runbook_steps
  let s := { s with runbook_steps := done }
  let s := s.add_log tl "INFO" ("Runbook [1/5]: " ++ stepName 0)
  { s with runbook_steps := s.runbook_steps ++ [⟨stepName 1, "running", ts, none⟩] }

/-- After phase 1's sleep: compute the root cause from `chaos_mode`, mark
step 1 done with that detail, log it, append step 2 as running. -/
def block2 (s : ServiceState) (tl ts : String) : ServiceState :=
  let root_cause := rcLookup s.chaos_mode
  let done := updLast
    (fun st => { st with status := "done", detail := some root_cause })
    s.runbook_steps
  let s := { s with runbook_steps := done }
  let s := s.add_log tl "INFO" ("Root cause identified: " ++ root_cause)
  { s with runbook_steps := s.runbook_steps ++ [⟨stepName 2, "running", ts, none⟩] }

/-- After phase 2's first sleep: set status to recovering and log. -/
def block3 (s : ServiceState) (tl : String) : ServiceState :=
  let s := { s with status := "recovering" }
  s.add_log tl "INFO" "Restarting payment-service..."

/-- After phase 2's second sleep: restore status to healthy, record
`incident_resolved_at = time.time()`, mark step 2 done, log, append
step 3 as running. -/
def block4 (s : ServiceState) (rt : ℚ) (tl ts : String) : ServiceState :=
  let s := { s with status := "healthy", incident_resolved_at := some rt }
  let done := updLast (fun st => { st with status := "done" }) s.runbook_steps
  let s := { s with runbook_steps := done }
  let s := s.add_log tl "INFO" "✅ Service restarted successfully — health check PASSED"
  { s with runbook_steps := s.runbook_steps ++ [⟨stepName 3, "running", ts, none⟩] }

/-- After phase 3's sleep: mark step 3 done, log, append step 4 as running. -/
def block5 (s : ServiceState) (tl ts : String) : ServiceState :=
  let done := updLast (fun st => { st with status := "done" }) s.runbook_steps
  let s := { s with runbook_steps := done }
  let s := s.add_log tl "INFO" "Recovery verified — payment processing resumed"
  { s with runbook_steps := s.runbook_steps ++ [⟨stepName 4, "running", ts, none⟩] }

/-- After phase 4's sleep: compute the MTTR, mark step 4 done, log the
incident report, clear `runbook_running`. Returns `none` when either
incident timestamp is `None` (the Python subtraction would raise). -/
def block6 (s : ServiceState) (tl : String) : Option ServiceState :=
  match s.incident_resolved_at, s.incident_started_at with
  | some r, some t =>
    let mttr := pyRound (r - t)
    let done := updLast (fun st => { st with status := "done" }) s.runbook_steps
    let s := { s with runbook_steps := done }
    let s := s.add_log tl "INFO"
      ("📨 Incident report: MTTR=" ++ toString mttr ++ "s | Root cause: " ++
        pyStr s.chaos_mode)
    some { s with runbook_running := false }
  | _, _ => none

/-- The sequential `run_runbook` function: the composition of the atomic
blocks, with `tstr n` the n-th formatted clock read and `rt` the
`time.time()` read that becomes `incident_resolved_at`. -/
def run_runbook (s : ServiceState) (tstr : Nat → String) (rt : ℚ) :
    Option ServiceState :=
  let s := block0 s (tstr 0) (tstr 1)
  let s := block1 s (tstr 2) (tstr 3)
  let s := block2 s (tstr 4) (tstr 5)
  let s := block3 s (tstr 6)
  let s := block4 s rt (tstr 7) (tstr 8)
  let s := block5 s (tstr 9) (tstr 10)
  block6 s (tstr 11)

/-! Endpoints. Each handler of the source reads and writes the shared
singleton; here it maps the pre-state to the pair (post-state, response). -/

/-- Response of `GET /health`. -/
structure HealthResp where
  status : String
deriving Repr, DecidableEq

/-- `GET /health`. -/
def health (s : ServiceState) : ServiceState × HealthResp :=
  (s, ⟨s.status⟩)

/-- Response of `GET /logs`. -/
structure LogsResp where
  logs : List LogEntry
deriving Repr, DecidableEq

/-- `GET /logs`: the last five entries (`state.logs[-5:]`). -/
def get_logs (s : ServiceState) : ServiceState × LogsResp :=
  (s, ⟨lastN 5 s.logs⟩)

/-- The scan of `get_state` that keeps the detail of the last runbook step
whose `detail` is present and truthy (a nonempty string). -/
def root_cause_scan (steps : List RunbookStep) : Option String :=
  steps.foldl
    (fun acc st =>
      match st.detail with
      | some d => if d ≠ "" then some d else acc
      | none => acc)
    none

/-- Response of `GET /state`. -/
structure StateResp where
  status : String
  chaos_mode : Option String
  uptime : ℤ
  incident_started_at : Option ℚ
  incident_resolved_at : Option ℚ
  incident_elapsed : Option ℤ
  mttr : Option ℤ
  runbook_running : Bool
  runbook_steps : List RunbookStep
  logs : List LogEntry
  root_cause : Option String
deriving Repr, DecidableEq

/-- `GET /state`. The guards `if state.incident_resolved_at and
state.incident_started_at` and `if state.incident_started_at and not
state.incident_resolved_at` use Python truthiness (`None` and `0.0`
falsy). -/
def get_state (s : ServiceState) (now : ℚ) : ServiceState × StateResp :=
  let mttr : Option ℤ :=
    if truthyTime s.incident_resolved_at && truthyTime s.incident_started_at then
      some (pyRound (s.incident_resolved_at.getD 0 - s.incident_started_at.getD 0))
    else none
  let incident_elapsed : Option ℤ :=
    if truthyTime s.incident_started_at && !truthyTime s.incident_resolved_at then
      some (pyRound (now - s.incident_started_at.getD 0))
    else none
  (s,
    { status := s.status
      chaos_mode := s.chaos_mode
      uptime := pyRound (now - s.started_at)
      incident_started_at := s.incident_started_at
      incident_resolved_at := s.incident_resolved_at
      incident_elapsed := incident_elapsed
      mttr := mttr
      runbook_running := s.runbook_running
      runbook_steps := s.runbook_steps
      logs := lastN 5 s.logs
      root_cause := root_cause_scan s.runbook_steps })

/-- The body of `POST /admin/chaos` (`ChaosRequest` with its defaults). -/
structure ChaosRequest where
  mode : String := "connection_pool"
  auto_runbook_delay : ℤ := 8
deriving Repr, DecidableEq

/-- Result of `POST /admin/chaos`: `{"error": ...}` or `{"ok": True,
"mode": ...}`. -/
inductive ChaosResult where
  | err (msg : String)
  | ok (mode : String)
deriving Repr, DecidableEq

/-- The `mode_labels.get(req.mode, req.mode)` lookup of `trigger_chaos`. -/
def chaosLabel (mode : String) : String :=
  if mode = "connection_pool" then "Connection pool exhausted"
  else if mode = "timeout" then "Downstream timeout"
  else if mode = "random_crash" then "Service panic / crash"
  else mode

/-- `POST /admin/chaos`: refuse when not healthy; otherwise open the
incident window, record the mode, clear the previous resolution and steps,
and log the incident. The spawned `delayed_runbook` thread is modelled in
the event semantics below (`Event.checkFire`). -/
def trigger_chaos (s : ServiceState) (req : ChaosRequest) (now : ℚ)
    (ts : String) : ServiceState × ChaosResult :=
  if s.status ≠ "healthy" then
    (s, .err "Service is not healthy — reset first")
  else
    let s := { s with
      status := "unhealthy"
      chaos_mode := some req.mode
      incident_started_at := some now
      incident_resolved_at := none
      runbook_steps := [] }
    let s := s.add_log ts "ERROR" ("🚨 INCIDENT: " ++ chaosLabel req.mode)
    (s, .ok req.mode)

/-- `POST /admin/reset`: always succeeds. -/
def reset_endpoint (s : ServiceState) (now : ℚ) (ts1 ts2 ts3 : String) :
    ServiceState × Bool :=
  (s.reset now ts1 ts2 ts3, true)

/-!
Concurrent semantics. The process state is the shared `ServiceState`
together with the set of `delayed_runbook` checks that have been scheduled
but not yet fired (each fires exactly once, so a count suffices — all
pending checks behave identically once their sleep ends) and the program
counters of the runbook executions currently in flight. One transition is
one atomic block between `time.sleep` calls; in particular the
`delayed_runbook` check and the runbook entry block run without an
intervening sleep and hence form one transition.
-/

/-- The whole-process state: shared `ServiceState`, number of scheduled
`delayed_runbook` checks that have not fired yet, and the program counters
(next block index, 1–6) of in-flight runbook executions. -/
structure Sys where
  st : ServiceState
  pending : Nat
  active : List Nat
deriving Repr, DecidableEq

/-- One scheduling event. `trigger` and `reset` are driven by requests,
`checkFire` is the wakeup of one scheduled `delayed_runbook` check,
`rbStep` lets the in-flight runbook at position `i` of `Sys.active` execute
its next block, and `logTick` is one firing of `log_generator`. Clock reads
and random draws travel with the event. -/
inductive Event where
  | trigger (mode : String) (delay : ℤ) (now : ℚ) (ts : String)
  | checkFire (tl ts : String)
  | rbStep (i : Nat) (tl ts : String) (rt : ℚ)
  | logTick (ts : String) (r : Nat)
  | reset (now : ℚ) (ts1 ts2 ts3 : String)

/-- Whether an event is a reset request. -/
def Event.isReset : Event → Bool
  | .reset _ _ _ _ => true
  | _ => false

/-- The runbook block executed from program counter `pc` (blocks 1–5;
block 0 runs inside the spawning transition and block 6 is handled
separately because it can fail). -/
def rbBlock (pc : Nat) (tl ts : String) (rt : ℚ) (s : ServiceState) :
    ServiceState :=
  match pc with
  | 1 => block1 s tl ts
  | 2 => block2 s tl ts
  | 3 => block3 s tl
  | 4 => block4 s rt tl ts
  | 5 => block5 s tl ts
  | _ => s

/-- The transition function. `none` means the event cannot occur in this
state (no pending check to fire, no in-flight runbook at that index, or the
runbook's final block raising on a `None` timestamp). -/
def stepFn (sys : Sys) : Event → Option Sys
  | .trigger mode delay now ts =>
    let res := trigger_chaos sys.st { mode := mode, auto_runbook_delay := delay } now ts
    match res.2 with
    | .ok _ => some { st := res.1, pending := sys.pending + 1, active := sys.active }
    | .err _ => some { sys with st := res.1 }
  | .checkFire tl ts =>
    if sys.pending = 0 then none
    else if sys.st.status = "unhealthy" ∧ sys.st.runbook_running = false then
      some { st := block0 sys.st tl ts
             pending := sys.pending - 1
             active := sys.active ++ [1] }
    else
      some { sys with pending := sys.pending - 1 }
  | .rbStep i tl ts rt =>
    match sys.active.get? i with
    | none => none
    | some pc =>
      if pc = 6 then
        match block6 sys.st tl with
        | some st2 => some { sys with st := st2, active := sys.active.eraseIdx i }
        | none => none
      else
        some { sys with st := rbBlock pc tl ts rt sys.st
                        active := sys.active.set i (pc + 1) }
  | .logTick ts r => some { sys with st := log_generator_tick sys.st ts r }
  | .reset now ts1 ts2 ts3 =>
    some { sys with st := sys.st.reset now ts1 ts2 ts3 }

/-- Run a list of events from a system state. -/
def runEvents (sys : Sys) : List Event → Option Sys
  | [] => some sys
  | e :: es =>
    match stepFn sys e with
    | some sys2 => runEvents sys2 es
    | none => none

/-- The process state right after startup (module import runs
`ServiceState()` and starts the background generator; nothing is scheduled
and no runbook is in flight). -/
def initSys (now : ℚ) (ts1 ts2 ts3 : String) : Sys :=
  { st := resetState now ts1 ts2 ts3, pending := 0, active := [] }

/-- Reachability of a whole-process state from startup by any interleaving
of events. -/
def Reachable (sys : Sys) : Prop :=
  ∃ now ts1 ts2 ts3 es,
    runEvents (initSys now ts1 ts2 ts3) es = some sys

/-- Reachability by interleavings that contain no reset request. -/
def ReachableNoReset (sys : Sys) : Prop :=
  ∃ now ts1 ts2 ts3 es,
    (∀ e ∈ es, e.isReset = false) ∧
    runEvents (initSys now ts1 ts2 ts3) es = some sys

/-- A raw log-append request: timestamp, level, message. -/
def mkEntry (e : String × String × String) : LogEntry :=
  ⟨e.1, e.2.1, e.2.2⟩

/-- Fold a sequence of appends through the single append operation
`_add_log`. -/
def appendAll (s : ServiceState) (es : List (String × String × String)) :
    ServiceState :=
  es.foldl (fun s e => s._add_log e.1 e.2.1 e.2.2) s

/-- The seven log entries appended by one complete runbook run, in order. -/
def rbLogEntries (tstr : Nat → String) (rt t0 : ℚ) (c : Option String) :
    List LogEntry :=
  [ ⟨tstr 0, "INFO", "🤖 Runbook triggered automatically"⟩
  , ⟨tstr 2, "INFO", "Runbook [1/5]: " ++ stepName 0⟩
  , ⟨tstr 4, "INFO", "Root cause identified: " ++ rcLookup c⟩
  , ⟨tstr 6, "INFO", "Restarting payment-service..."⟩
  , ⟨tstr 7, "INFO", "✅ Service restarted successfully — health check PASSED"⟩
  , ⟨tstr 9, "INFO", "Recovery verified — payment processing resumed"⟩
  , ⟨tstr 11, "INFO", "📨 Incident report: MTTR=" ++
      toString (pyRound (rt - t0)) ++ "s | Root cause: " ++ pyStr c⟩ ]

/-- The five step records produced by one complete runbook run. -/
def rbFinalSteps (tstr : Nat → String) (c : Option String) :
    List RunbookStep :=
  [ ⟨stepName 0, "done", tstr 1, none⟩
  , ⟨stepName 1, "done", tstr 3, some (rcLookup c)⟩
  , ⟨stepName 2, "done", tstr 5, none⟩
  , ⟨stepName 3, "done", tstr 8, none⟩
  , ⟨stepName 4, "done", tstr 10, none⟩ ]

/-- The three seed log entries written by `reset`. -/
def seedLogs (ts1 ts2 ts3 : String) : List LogEntry :=
  [ ⟨ts1, "INFO", "payment-service started successfully"⟩
  , ⟨ts2, "INFO", "Connected to database pool (max: 100 connections)"⟩
  , ⟨ts3, "INFO", "Listening on :8080"⟩ ]

/-! Concrete example states used to instantiate the theorems below. -/

/-- A freshly reset state. -/
def exHealthy : ServiceState := resetState 0 "a" "b" "c"

/-- The state after triggering a timeout incident at time 1 on a fresh
state. -/
def exTimeout : ServiceState :=
  (trigger_chaos exHealthy { mode := "timeout", auto_runbook_delay := 0 } 1 "d").1

/-- The state after triggering a connection-pool incident at time 1 on a
fresh state. -/
def exPool : ServiceState :=
  (trigger_chaos exHealthy {} 1 "d").1

/-- A state in the recovering phase. -/
def exRecovering : ServiceState := { exTimeout with status := "recovering" }

/-- A state with an empty log buffer. -/
def exEmptyLogs : ServiceState := { exHealthy with logs := [] }

/-- The inductive invariant of the whole-process semantics (reset-free):
the number of in-flight runbook executions matches the `runbook_running`
flag, and while no chaos mode is recorded the service is healthy with no
runbook in flight. -/
def SysInv (sys : Sys) : Prop :=
  sys.active.length = (if sys.st.runbook_running then 1 else 0) ∧
  (sys.st.chaos_mode = none → sys.st.status = "healthy" ∧ sys.active = [])

/-- A reset-free event trace: trigger a timeout incident at time 1, fire
the scheduled check, and let the spawned runbook run all six remaining
blocks to completion (resolution clock read 2). -/
def esC3 : List Event :=
  [ .trigger "timeout" 8 1 "d"
  , .checkFire "t" "t"
  , .rbStep 0 "t" "t" 2
  , .rbStep 0 "t" "t" 2
  , .rbStep 0 "t" "t" 2
  , .rbStep 0 "t" "t" 2
  , .rbStep 0 "t" "t" 2
  , .rbStep 0 "t" "t" 2 ]

/-- A one-event trace that only triggers an incident. -/
def esTrig : List Event := [.trigger "timeout" 8 1 "d"]

/-- The whole-process state right after `esTrig`. -/
def sysTrig : Sys :=
  (runEvents (initSys 0 "a" "b" "c") esTrig).getD (initSys 0 "a" "b" "c")

/-- The control fields of a whole-process state: status, chaos mode,
pending checks and in-flight runbook counters (everything except clock
values and log text). -/
def controlView (sys : Sys) : String × Option String × Nat × List Nat :=
  (sys.st.status, sys.st.chaos_mode, sys.pending, sys.active)

/-! Helper lemmas about `lastN` and the log buffer. -/

theorem lastN_eq_reverse_take {α : Type} (n : Nat) (l : List α) :
    lastN n l = (l.reverse.take n).reverse := by
  rw [lastN, List.reverse_take, List.reverse_reverse, List.length_reverse]

theorem lastN_of_le {α : Type} {n : Nat} {l : List α} (h : l.length ≤ n) :
    lastN n l = l := by
  rw [lastN, Nat.sub_eq_zero_of_le h, List.drop_zero]

theorem length_lastN_le {α : Type} (n : Nat) (l : List α) :
    (lastN n l).length ≤ n := by
  rw [lastN, List.length_drop]
  omega

theorem lastN_lastN_append {α : Type} (n : Nat) (xs ys : List α) :
    lastN n (lastN n xs ++ ys) = lastN n (xs ++ ys) := by
  simp only [lastN_eq_reverse_take]
  rw [List.reverse_append, List.reverse_reverse, List.reverse_append]
  rw [List.take_append_eq_append_take, List.take_append_eq_append_take,
    List.take_take]
  have hmin : (n - ys.reverse.length) ⊓ n = n - ys.reverse.length :=
    inf_eq_left.mpr (Nat.sub_le _ _)
  rw [hmin]

theorem lastN_concat_getLast {α : Type} {n : Nat} (hn : 0 < n) (xs : List α)
    (e : α) : (lastN n (xs ++ [e])).getLast? = some e := by
  rw [lastN]
  have hle : (xs ++ [e]).length - n ≤ xs.length := by
    rw [List.length_append]
    simp
    omega
  rw [List.drop_append_of_le_length hle, List.getLast?_concat]

theorem _add_log_eq (s : ServiceState) (ts lv m : String) :
    s._add_log ts lv m =
      { s with logs := lastN 50 (s.logs ++ [⟨ts, lv, m⟩]) } := by
  rw [ServiceState._add_log]
  by_cases h : (s.logs ++ [(⟨ts, lv, m⟩ : LogEntry)]).length > 50
  · rw [if_pos h]
  · rw [if_neg h, lastN_of_le (by omega)]

theorem add_log_eq (s : ServiceState) (ts lv m : String) :
    s.add_log ts lv m =
      { s with logs := lastN 50 (s.logs ++ [⟨ts, lv, m⟩]) } := by
  rw [ServiceState.add_log, _add_log_eq]


theorem appendAll_logs :
    ∀ (es : List (String × String × String)) (s : ServiceState),
      s.logs.length ≤ 50 →
      (appendAll s es).logs = lastN 50 (s.logs ++ es.map mkEntry)
  | [], s, h => by
    simp [appendAll, lastN_of_le h]
  | e :: es, s, h => by
    rw [appendAll, List.foldl_cons]
    have step := appendAll_logs es (s._add_log e.1 e.2.1 e.2.2)
      (by rw [_add_log_eq]; exact length_lastN_le 50 _)
    rw [appendAll] at step
    rw [step, _add_log_eq]
    show lastN 50 (lastN 50 (s.logs ++ [mkEntry e]) ++ es.map mkEntry) = _
    rw [lastN_lastN_append, List.map_cons, List.append_assoc]
    rfl

/-! Evaluation of a full sequential runbook run. -/


theorem run_runbook_eq (s0 : ServiceState) (tstr : Nat → String) (rt t0 : ℚ)
    (hst : s0.incident_started_at = some t0) :
    run_runbook s0 tstr rt = some
      { status := "healthy"
        chaos_mode := s0.chaos_mode
        started_at := s0.started_at
        incident_started_at := some t0
        incident_resolved_at := some rt
        runbook_steps := rbFinalSteps tstr s0.chaos_mode
        runbook_running := false
        logs := lastN 50 (s0.logs ++ rbLogEntries tstr rt t0 s0.chaos_mode)
        payment_counter := s0.payment_counter } := by
  simp only [run_runbook, block0, block1, block2, block3, block4, block5,
    block6, add_log_eq, updLast, hst, rbFinalSteps, rbLogEntries,
    lastN_lastN_append, List.nil_append, List.singleton_append,
    List.cons_append, List.append_assoc]

theorem rcLookup_ne_empty (c : Option String) : rcLookup c ≠ "" := by
  rw [rcLookup]
  split_ifs <;> simp

theorem catalogFor_ne_nil (c : Option String) : catalogFor c ≠ [] := by
  rw [catalogFor]
  split_ifs <;> simp [connectionPoolMsgs, timeoutMsgs, crashMsgs]

theorem pyChoice_mem {α : Type} (l : List α) (r : Nat) (d : α)
    (h : l ≠ []) : pyChoice l r d ∈ l := by
  rw [pyChoice]
  have hlen : 0 < l.length := List.length_pos.mpr h
  have hlt : r % l.length < l.length := Nat.mod_lt _ hlen
  rw [List.getD_eq_getElem?_getD, List.getElem?_eq_getElem hlt]
  exact List.getElem_mem hlt

/-! The claims. -/

/-- C4: for every sequence of appends through the single append operation,
starting from an empty buffer, the buffer afterwards holds exactly the most
recently appended 50 (or fewer) entries in insertion order (the oldest
evicted first), and its length never exceeds 50.  Quantifying over all
sequences covers every intermediate point of a longer sequence, since each
prefix is itself such a sequence. -/
theorem C4_log_buffer_bounded (s : ServiceState)
    (es : List (String × String × String)) (h : s.logs = []) :
    (appendAll s es).logs = ((es.map mkEntry).reverse.take 50).reverse ∧
    (appendAll s es).logs.length ≤ 50 := by
  have hlogs := appendAll_logs es s (by rw [h]; simp)
  rw [h, List.nil_append] at hlogs
  refine ⟨?_, ?_⟩
  · rw [hlogs, lastN_eq_reverse_take]
  · rw [hlogs]
    exact length_lastN_le 50 _

/-- Witness for C4 at a concrete state and append sequence. -/
theorem C4_log_buffer_bounded_witness :
    (appendAll exEmptyLogs [("t1", "INFO", "m1"), ("t2", "WARN", "m2"),
      ("t3", "ERROR", "m3")]).logs =
      (([("t1", "INFO", "m1"), ("t2", "WARN", "m2"),
        ("t3", "ERROR", "m3")].map mkEntry).reverse.take 50).reverse ∧
    (appendAll exEmptyLogs [("t1", "INFO", "m1"), ("t2", "WARN", "m2"),
      ("t3", "ERROR", "m3")]).logs.length ≤ 50 :=
  C4_log_buffer_bounded exEmptyLogs _ rfl

/-- C2: triggering an incident while healthy transitions the state to
unhealthy with the requested chaos mode, opens the incident window at the
current time, clears the previous resolution timestamp and runbook steps,
appends one ERROR log entry naming the incident, and acknowledges the mode;
triggering while not healthy returns the error result and leaves the state
completely unchanged. -/
theorem C2_trigger_chaos (s : ServiceState) (req : ChaosRequest) (now : ℚ)
    (ts : String) :
    (s.status = "healthy" →
      trigger_chaos s req now ts =
        ({ s with
            status := "unhealthy"
            chaos_mode := some req.mode
            incident_started_at := some now
            incident_resolved_at := none
            runbook_steps := []
            logs := lastN 50 (s.logs ++
              [⟨ts, "ERROR", "🚨 INCIDENT: " ++ chaosLabel req.mode⟩]) },
          ChaosResult.ok req.mode)) ∧
    (s.status ≠ "healthy" →
      trigger_chaos s req now ts =
        (s, ChaosResult.err "Service is not healthy — reset first")) := by
  constructor
  · intro h
    rw [trigger_chaos, if_neg (not_not_intro h)]
    simp only [add_log_eq]
  · intro h
    rw [trigger_chaos, if_pos h]

/-- Witness for C2: both branches at concrete states. -/
theorem C2_trigger_chaos_witness :
    (trigger_chaos exHealthy {} 1 "d" =
      ({ exHealthy with
          status := "unhealthy"
          chaos_mode := some "connection_pool"
          incident_started_at := some 1
          incident_resolved_at := none
          runbook_steps := []
          logs := lastN 50 (exHealthy.logs ++
            [⟨"d", "ERROR", "🚨 INCIDENT: " ++ chaosLabel "connection_pool"⟩]) },
        ChaosResult.ok "connection_pool")) ∧
    (trigger_chaos exPool {} 2 "e" =
      (exPool, ChaosResult.err "Service is not healthy — reset first")) :=
  ⟨(C2_trigger_chaos exHealthy {} 1 "d").1 rfl,
   (C2_trigger_chaos exPool {} 2 "e").2 (by decide)⟩

/-- C9: the three read endpoints return the state they were given,
unchanged, and the recent-logs read returns exactly the last five log
entries, newest last. -/
theorem C9_reads_no_side_effects (s : ServiceState) (now : ℚ) :
    (health s).1 = s ∧
    (get_logs s).1 = s ∧
    (get_state s now).1 = s ∧
    (get_logs s).2.logs = (s.logs.reverse.take 5).reverse := by
  refine ⟨rfl, rfl, rfl, ?_⟩
  show lastN 5 s.logs = _
  rw [lastN_eq_reverse_take]

/-- C7: reset always produces exactly the startup defaults — healthy, no
chaos mode, no incident timestamps, empty steps, not running, counter zero,
and precisely the three seed INFO log entries; the full-state read of a
fresh or just-reset state shows healthy status, 3 logs, no running runbook
and no steps; and resetting twice with the same clock reads equals
resetting once. -/
theorem C7_reset_defaults_idempotent (s : ServiceState) (now now2 : ℚ)
    (ts1 ts2 ts3 : String) :
    resetState now ts1 ts2 ts3 =
      { status := "healthy"
        chaos_mode := none
        started_at := now
        incident_started_at := none
        incident_resolved_at := none
        runbook_steps := []
        runbook_running := false
        logs := seedLogs ts1 ts2 ts3
        payment_counter := 0 } ∧
    (get_state (resetState now ts1 ts2 ts3) now2).2.status = "healthy" ∧
    (get_state (resetState now ts1 ts2 ts3) now2).2.logs.length = 3 ∧
    (get_state (resetState now ts1 ts2 ts3) now2).2.runbook_running = false ∧
    (get_state (resetState now ts1 ts2 ts3) now2).2.runbook_steps = [] ∧
    reset_endpoint s now ts1 ts2 ts3 = (resetState now ts1 ts2 ts3, true) ∧
    (s.reset now ts1 ts2 ts3).reset now ts1 ts2 ts3 = s.reset now ts1 ts2 ts3 :=
  ⟨rfl, rfl, rfl, rfl, rfl, rfl, rfl⟩

/-- C5: one firing of the log emission task. Healthy: appends exactly one
INFO entry for a synthetic transaction tagged `paymentCounter + 1000` and
then increments the counter. Unhealthy: appends exactly one ERROR entry
drawn from the catalog keyed by the chaos mode. Recovering: appends
nothing and changes nothing. -/
theorem C5_log_emission (s : ServiceState) (ts : String) (r : Nat) :
    (s.status = "healthy" →
      log_generator_tick s ts r =
        { s with
            logs := lastN 50 (s.logs ++
              [⟨ts, "INFO", payMsg (pyChoice amounts r 0) s.payment_counter⟩])
            payment_counter := s.payment_counter + 1 }) ∧
    (s.status = "unhealthy" →
      ∃ msg, msg ∈ catalogFor s.chaos_mode ∧
        log_generator_tick s ts r =
          { s with logs := lastN 50 (s.logs ++ [⟨ts, "ERROR", msg⟩]) }) ∧
    (s.status = "recovering" → log_generator_tick s ts r = s) := by
  refine ⟨?_, ?_, ?_⟩
  · intro h
    rw [log_generator_tick, if_pos h]
    simp only [add_log_eq]
  · intro h
    refine ⟨pyChoice (catalogFor s.chaos_mode) r "",
      pyChoice_mem _ r _ (catalogFor_ne_nil s.chaos_mode), ?_⟩
    rw [log_generator_tick, if_neg (by rw [h]; decide), if_pos h]
    simp only [add_log_eq]
  · intro h
    rw [log_generator_tick, if_neg (by rw [h]; decide),
      if_neg (by rw [h]; decide)]

/-- Witness for C5: all three status cases at concrete states. -/
theorem C5_log_emission_witness :
    (log_generator_tick exHealthy "t" 2 =
      { exHealthy with
          logs := lastN 50 (exHealthy.logs ++
            [⟨"t", "INFO", payMsg (pyChoice amounts 2 0) exHealthy.payment_counter⟩])
          payment_counter := exHealthy.payment_counter + 1 }) ∧
    (∃ msg, msg ∈ catalogFor exPool.chaos_mode ∧
      log_generator_tick exPool "t" 2 =
        { exPool with logs := lastN 50 (exPool.logs ++ [⟨"t", "ERROR", msg⟩]) }) ∧
    (log_generator_tick exRecovering "t" 2 = exRecovering) :=
  ⟨(C5_log_emission exHealthy "t" 2).1 rfl,
   (C5_log_emission exPool "t" 2).2.1 rfl,
   (C5_log_emission exRecovering "t" 2).2.2 rfl⟩

/-- C1: a runbook execution that runs to completion from a state with
status unhealthy, an open incident window and a chaos mode set ends with
status healthy, the resolution timestamp set at or after the start
timestamp (the wall clock read at resolution, `rt`, being at or after the
earlier read `t0`), exactly five runbook steps all done, the running flag
cleared, and a final log entry whose reported MTTR is
`round(incidentResolvedAt - incidentStartedAt)`. -/
theorem C1_runbook_completion (s0 : ServiceState) (tstr : Nat → String)
    (rt t0 : ℚ) (m : String)
    (hstatus : s0.status = "unhealthy")
    (hchaos : s0.chaos_mode = some m)
    (hst : s0.incident_started_at = some t0)
    (hclock : t0 ≤ rt) :
    ∃ s1, run_runbook s0 tstr rt = some s1 ∧
      s1.status = "healthy" ∧
      s1.incident_resolved_at = some rt ∧
      s1.incident_started_at = some t0 ∧
      t0 ≤ rt ∧
      s1.runbook_steps.length = 5 ∧
      (∀ st ∈ s1.runbook_steps, st.status = "done") ∧
      s1.runbook_running = false ∧
      s1.logs.getLast? = some ⟨tstr 11, "INFO",
        "📨 Incident report: MTTR=" ++ toString (pyRound (rt - t0)) ++
          "s | Root cause: " ++ pyStr s0.chaos_mode⟩ := by
  refine ⟨_, run_runbook_eq s0 tstr rt t0 hst, rfl, rfl, rfl, hclock, rfl,
    ?_, rfl, ?_⟩
  · intro st hmem
    simp only [rbFinalSteps, List.mem_cons, List.not_mem_nil, or_false] at hmem
    rcases hmem with rfl | rfl | rfl | rfl | rfl <;> rfl
  · show (lastN 50 (s0.logs ++ rbLogEntries tstr rt t0 s0.chaos_mode)).getLast? = _
    have hsplit : s0.logs ++ rbLogEntries tstr rt t0 s0.chaos_mode =
        (s0.logs ++ (rbLogEntries tstr rt t0 s0.chaos_mode).dropLast) ++
          [⟨tstr 11, "INFO",
            "📨 Incident report: MTTR=" ++ toString (pyRound (rt - t0)) ++
              "s | Root cause: " ++ pyStr s0.chaos_mode⟩] := by
      simp [rbLogEntries]
    rw [hsplit, lastN_concat_getLast (by norm_num)]

/-- Witness for C1 at a concrete unhealthy state and clock values. -/
theorem C1_runbook_completion_witness :
    ∃ s1, run_runbook exTimeout (fun _ => "t") 3 = some s1 ∧
      s1.status = "healthy" ∧
      s1.incident_resolved_at = some 3 ∧
      s1.incident_started_at = some 1 ∧
      (1 : ℚ) ≤ 3 ∧
      s1.runbook_steps.length = 5 ∧
      (∀ st ∈ s1.runbook_steps, st.status = "done") ∧
      s1.runbook_running = false ∧
      s1.logs.getLast? = some ⟨"t", "INFO",
        "📨 Incident report: MTTR=" ++ toString (pyRound ((3 : ℚ) - 1)) ++
          "s | Root cause: " ++ pyStr exTimeout.chaos_mode⟩ :=
  C1_runbook_completion exTimeout (fun _ => "t") 3 1 "timeout"
    rfl rfl rfl (by norm_num)

/-- C6: the analysis phase maps the chaos mode through the fixed
root-cause table (timeout giving the circuit-breaker message, unrecognized
modes giving "Unknown error"), records the result in that step's detail
field, and the full-state read reports it as the root cause; in particular
a completed run for mode timeout reports the circuit-breaker message with
status healthy. -/
theorem C6_root_cause (s0 : ServiceState) (tstr : Nat → String)
    (rt t0 now : ℚ) (hst : s0.incident_started_at = some t0) :
    rcLookup (some "connection_pool") = "Connection pool exhausted (100/100)" ∧
    rcLookup (some "timeout") = "Downstream timeout — circuit breaker tripped" ∧
    rcLookup (some "random_crash") = "Nil pointer dereference in payment handler" ∧
    (∀ c : String, c ≠ "connection_pool" → c ≠ "timeout" →
      c ≠ "random_crash" → rcLookup (some c) = "Unknown error") ∧
    rcLookup none = "Unknown error" ∧
    ∃ s1, run_runbook s0 tstr rt = some s1 ∧
      s1.runbook_steps.get? 1 =
        some ⟨stepName 1, "done", tstr 3, some (rcLookup s0.chaos_mode)⟩ ∧
      (get_state s1 now).2.root_cause = some (rcLookup s0.chaos_mode) ∧
      (s0.chaos_mode = some "timeout" →
        (get_state s1 now).2.root_cause =
          some "Downstream timeout — circuit breaker tripped" ∧
        s1.status = "healthy") := by
  refine ⟨rfl, rfl, rfl, ?_, rfl, ?_⟩
  · intro c h1 h2 h3
    rw [rcLookup]
    rw [if_neg (by simp [h1]), if_neg (by simp [h2]), if_neg (by simp [h3])]
  · refine ⟨_, run_runbook_eq s0 tstr rt t0 hst, rfl, ?_, ?_⟩
    · show root_cause_scan (rbFinalSteps tstr s0.chaos_mode) = _
      simp [root_cause_scan, rbFinalSteps, rcLookup_ne_empty s0.chaos_mode]
    · intro hc
      rw [hc]
      refine ⟨?_, rfl⟩
      show root_cause_scan (rbFinalSteps tstr (some "timeout")) = _
      simp [root_cause_scan, rbFinalSteps, rcLookup]

/-- Witness for C6 at a concrete triggered timeout incident. -/
theorem C6_root_cause_witness :
    rcLookup (some "connection_pool") = "Connection pool exhausted (100/100)" ∧
    rcLookup (some "timeout") = "Downstream timeout — circuit breaker tripped" ∧
    rcLookup (some "random_crash") = "Nil pointer dereference in payment handler" ∧
    (∀ c : String, c ≠ "connection_pool" → c ≠ "timeout" →
      c ≠ "random_crash" → rcLookup (some c) = "Unknown error") ∧
    rcLookup none = "Unknown error" ∧
    ∃ s1, run_runbook exTimeout (fun _ => "t") 3 = some s1 ∧
      s1.runbook_steps.get? 1 =
        some ⟨stepName 1, "done", "t", some (rcLookup exTimeout.chaos_mode)⟩ ∧
      (get_state s1 5).2.root_cause = some (rcLookup exTimeout.chaos_mode) ∧
      (exTimeout.chaos_mode = some "timeout" →
        (get_state s1 5).2.root_cause =
          some "Downstream timeout — circuit breaker tripped" ∧
        s1.status = "healthy") :=
  C6_root_cause exTimeout (fun _ => "t") 3 1 5 rfl

/-- C10: the trigger command accepts any mode string. For an unrecognized
mode while healthy, the state becomes unhealthy with that exact chaos mode,
the incident log entry names the mode verbatim (the label lookup falls back
to the raw mode), the unhealthy log emission draws from the crash-themed
catalog, and the analysis phase of a subsequent runbook records "Unknown
error". -/
theorem C10_unrecognized_mode (s : ServiceState) (m : String) (delay : ℤ)
    (now rt : ℚ) (ts ts2 : String) (r : Nat) (tstr : Nat → String)
    (hhealthy : s.status = "healthy")
    (h1 : m ≠ "connection_pool") (h2 : m ≠ "timeout")
    (h3 : m ≠ "random_crash") :
    ∃ s1, trigger_chaos s { mode := m, auto_runbook_delay := delay } now ts =
        (s1, ChaosResult.ok m) ∧
      s1.status = "unhealthy" ∧
      s1.chaos_mode = some m ∧
      s1.logs.getLast? = some ⟨ts, "ERROR", "🚨 INCIDENT: " ++ m⟩ ∧
      catalogFor (some m) = crashMsgs ∧
      (∃ msg, msg ∈ crashMsgs ∧
        log_generator_tick s1 ts2 r =
          { s1 with logs := lastN 50 (s1.logs ++ [⟨ts2, "ERROR", msg⟩]) }) ∧
      rcLookup (some m) = "Unknown error" ∧
      (∃ s2, run_runbook s1 tstr rt = some s2 ∧
        s2.runbook_steps.get? 1 =
          some ⟨stepName 1, "done", tstr 3, some "Unknown error"⟩) := by
  have hlabel : chaosLabel m = m := by
    rw [chaosLabel, if_neg h1, if_neg h2, if_neg h3]
  have hcat : catalogFor (some m) = crashMsgs := by
    rw [catalogFor, if_neg (by simp [h1]), if_neg (by simp [h2])]
  have hrc : rcLookup (some m) = "Unknown error" := by
    rw [rcLookup]
    rw [if_neg (by simp [h1]), if_neg (by simp [h2]), if_neg (by simp [h3])]
  have htrig := (C2_trigger_chaos s { mode := m, auto_runbook_delay := delay }
    now ts).1 hhealthy
  have hlast : (lastN 50 (s.logs ++
      ([⟨ts, "ERROR", "🚨 INCIDENT: " ++ chaosLabel m⟩] : List LogEntry))).getLast? =
      some ⟨ts, "ERROR", "🚨 INCIDENT: " ++ m⟩ := by
    rw [hlabel]
    exact lastN_concat_getLast (by norm_num) _ _
  have htick : ∀ u : ServiceState, u.status = "unhealthy" →
      u.chaos_mode = some m →
      log_generator_tick u ts2 r =
        { u with logs := lastN 50 (u.logs ++
            [⟨ts2, "ERROR", pyChoice crashMsgs r ""⟩]) } := by
    intro u hu hc
    rw [log_generator_tick, if_neg (by rw [hu]; decide), if_pos hu, hc, hcat]
    simp only [add_log_eq]
    rw [hc]
  have hstep : ∀ c : Option String, c = some m →
      (rbFinalSteps tstr c).get? 1 =
        some ⟨stepName 1, "done", tstr 3, some "Unknown error"⟩ := by
    intro c hc
    rw [hc]
    simp [rbFinalSteps, hrc]
  refine ⟨_, htrig, rfl, rfl, hlast, hcat,
    ⟨pyChoice crashMsgs r "", pyChoice_mem _ r _ (by simp [crashMsgs]),
      htick _ rfl rfl⟩,
    hrc, ⟨_, run_runbook_eq _ tstr rt now rfl, hstep _ rfl⟩⟩

/-- Witness for C10 with the unrecognized mode "weird". -/
theorem C10_unrecognized_mode_witness :
    ∃ s1, trigger_chaos exHealthy { mode := "weird", auto_runbook_delay := 8 }
        1 "d" = (s1, ChaosResult.ok "weird") ∧
      s1.status = "unhealthy" ∧
      s1.chaos_mode = some "weird" ∧
      s1.logs.getLast? = some ⟨"d", "ERROR", "🚨 INCIDENT: " ++ "weird"⟩ ∧
      catalogFor (some "weird") = crashMsgs ∧
      (∃ msg, msg ∈ crashMsgs ∧
        log_generator_tick s1 "e" 0 =
          { s1 with logs := lastN 50 (s1.logs ++ [⟨"e", "ERROR", msg⟩]) }) ∧
      rcLookup (some "weird") = "Unknown error" ∧
      (∃ s2, run_runbook s1 (fun _ => "t") 3 = some s2 ∧
        s2.runbook_steps.get? 1 =
          some ⟨stepName 1, "done", "t", some "Unknown error"⟩) :=
  C10_unrecognized_mode exHealthy "weird" 8 1 3 "d" "e" 0 (fun _ => "t")
    rfl (by decide) (by decide) (by decide)

/-! Frame lemmas for the concurrency invariant. -/

theorem block0_frame (s : ServiceState) (tl ts : String) :
    (block0 s tl ts).runbook_running = true ∧
    (block0 s tl ts).chaos_mode = s.chaos_mode ∧
    (block0 s tl ts).status = s.status := by
  refine ⟨?_, ?_, ?_⟩ <;> simp [block0, add_log_eq]

theorem rbBlock_frame (pc : Nat) (tl ts : String) (rt : ℚ) (s : ServiceState) :
    (rbBlock pc tl ts rt s).runbook_running = s.runbook_running ∧
    (rbBlock pc tl ts rt s).chaos_mode = s.chaos_mode := by
  rcases pc with _ | _ | _ | _ | _ | _ | pc <;>
    refine ⟨?_, ?_⟩ <;>
    simp [rbBlock, block1, block2, block3, block4, block5, add_log_eq]

theorem block6_some {s s2 : ServiceState} {tl : String}
    (h : block6 s tl = some s2) :
    s2.runbook_running = false ∧ s2.chaos_mode = s.chaos_mode := by
  unfold block6 at h
  split at h
  · obtain rfl := Option.some.inj h
    refine ⟨?_, ?_⟩ <;> simp [add_log_eq]
  · exact absurd h (by simp)

theorem tick_frame (s : ServiceState) (ts : String) (r : Nat) :
    (log_generator_tick s ts r).runbook_running = s.runbook_running ∧
    (log_generator_tick s ts r).chaos_mode = s.chaos_mode ∧
    (log_generator_tick s ts r).status = s.status := by
  rw [log_generator_tick]
  split_ifs <;> refine ⟨?_, ?_, ?_⟩ <;> simp [add_log_eq]


theorem stepFn_preserves {sys sys2 : Sys} {e : Event} (hinv : SysInv sys)
    (hnr : e.isReset = false) (h : stepFn sys e = some sys2) : SysInv sys2 := by
  obtain ⟨hlen, hchaos⟩ := hinv
  cases e with
  | trigger mode delay now ts =>
    by_cases hs : sys.st.status ≠ "healthy"
    · simp only [stepFn, trigger_chaos, if_pos hs] at h
      obtain rfl := Option.some.inj h
      exact ⟨hlen, hchaos⟩
    · simp only [stepFn, trigger_chaos, if_neg hs] at h
      obtain rfl := Option.some.inj h
      refine ⟨?_, ?_⟩
      · show sys.active.length = _
        rw [hlen]
        rfl
      · intro hc
        simp [add_log_eq] at hc
  | checkFire tl ts =>
    by_cases hp : sys.pending = 0
    · rw [stepFn, if_pos hp] at h
      exact absurd h (by simp)
    · by_cases hcond : sys.st.status = "unhealthy" ∧
          sys.st.runbook_running = false
      · rw [stepFn, if_neg hp, if_pos hcond] at h
        obtain rfl := Option.some.inj h
        refine ⟨?_, ?_⟩
        · show (sys.active ++ [1]).length = _
          rw [List.length_append, hlen, hcond.2, (block0_frame _ tl ts).1]
          simp
        · intro hc
          rw [(block0_frame _ tl ts).2.1] at hc
          exact absurd ((hchaos hc).1 ▸ hcond.1) (by decide)
      · rw [stepFn, if_neg hp, if_neg hcond] at h
        obtain rfl := Option.some.inj h
        exact ⟨hlen, hchaos⟩
  | rbStep i tl ts rt =>
    cases hget : sys.active.get? i with
    | none =>
      simp only [stepFn, hget] at h
      exact Option.noConfusion h
    | some pc =>
      have hi : i < sys.active.length := by
        by_contra hge
        push_neg at hge
        rw [List.get?_eq_none.mpr hge] at hget
        exact Option.noConfusion hget
      by_cases hpc : pc = 6
      · simp only [stepFn, hget] at h
        rw [if_pos hpc] at h
        cases hb : block6 sys.st tl with
        | none => rw [hb] at h; exact absurd h (by simp)
        | some st2 =>
          rw [hb] at h
          obtain rfl := Option.some.inj h
          have hrun : sys.st.runbook_running = true := by
            by_contra hr
            rw [Bool.not_eq_true] at hr
            rw [hr, if_neg Bool.false_ne_true] at hlen
            omega
          refine ⟨?_, ?_⟩
          · show (sys.active.eraseIdx i).length =
              if st2.runbook_running = true then 1 else 0
            rw [List.length_eraseIdx, if_pos hi, (block6_some hb).1, hlen, hrun]
            simp
          · intro hc
            rw [(block6_some hb).2] at hc
            have := (hchaos hc).2
            rw [this] at hi
            exact absurd hi (by simp)
      · simp only [stepFn, hget] at h
        rw [if_neg hpc] at h
        obtain rfl := Option.some.inj h
        refine ⟨?_, ?_⟩
        · show (sys.active.set i (pc + 1)).length = _
          rw [List.length_set, hlen, (rbBlock_frame pc tl ts rt sys.st).1]
        · intro hc
          rw [(rbBlock_frame pc tl ts rt sys.st).2] at hc
          have := (hchaos hc).2
          rw [this] at hi
          exact absurd hi (by simp)
  | logTick ts r =>
    rw [stepFn] at h
    obtain rfl := Option.some.inj h
    refine ⟨?_, ?_⟩
    · show sys.active.length = _
      rw [hlen, (tick_frame sys.st ts r).1]
    · intro hc
      rw [(tick_frame sys.st ts r).2.1] at hc
      exact ⟨(tick_frame sys.st ts r).2.2 ▸ (hchaos hc).1, (hchaos hc).2⟩
  | reset now ts1 ts2 ts3 =>
    exact absurd hnr (by simp [Event.isReset])

theorem runEvents_preserves :
    ∀ (es : List Event) (sys sys2 : Sys), SysInv sys →
      (∀ e ∈ es, e.isReset = false) → runEvents sys es = some sys2 →
      SysInv sys2
  | [], sys, sys2, hinv, _, h => by
    rw [runEvents] at h
    obtain rfl := Option.some.inj h
    exact hinv
  | e :: es, sys, sys2, hinv, hnr, h => by
    rw [runEvents] at h
    cases hstep : stepFn sys e with
    | none => rw [hstep] at h; exact absurd h (by simp)
    | some sysMid =>
      rw [hstep] at h
      exact runEvents_preserves es sysMid sys2
        (stepFn_preserves hinv (hnr e (by simp)) hstep)
        (fun e2 he2 => hnr e2 (by simp [he2]))
        h

theorem initSys_inv (now : ℚ) (ts1 ts2 ts3 : String) :
    SysInv (initSys now ts1 ts2 ts3) :=
  ⟨rfl, fun _ => ⟨rfl, rfl⟩⟩

/-- C8: for any reset-free interleaving of trigger commands, scheduled
delayed-runbook checks, runbook block executions and log-generator firings,
at most one runbook execution is in flight at any time.  The scheduled
check consumes itself when it fires (at most once per trigger), and it
spawns the executor only when the status is still unhealthy and no runbook
is currently running; since `delayed_runbook` calls `run_runbook` with no
intervening sleep, the check and the executor's entry block form one
atomic transition. -/
theorem C8_single_flight (sys : Sys) (h : ReachableNoReset sys) :
    sys.active.length ≤ 1 := by
  obtain ⟨now, t1, t2, t3, es, hnr, hrun⟩ := h
  have hinv := runEvents_preserves es (initSys now t1 t2 t3) sys
    (initSys_inv now t1 t2 t3) hnr hrun
  rw [hinv.1]
  split <;> omega

/-- Witness for C8 at the concrete reachable state reached by `esTrig`. -/
theorem C8_single_flight_witness : sysTrig.active.length ≤ 1 :=
  C8_single_flight sysTrig
    ⟨0, "a", "b", "c", esTrig, by decide, by decide⟩

/-- C3 counterexample: the claimed equivalence "chaosMode is set iff
status ≠ healthy" fails in a reachable state that is not in any phase of a
recovery (no runbook in flight, `runbookRunning` false): after a triggered
incident has been fully recovered by the runbook, the status is healthy
again but `chaosMode` is still set — no code path other than reset ever
clears it. -/
theorem C3_counterexample :
    ¬ (∀ sys : Sys, Reachable sys → sys.active = [] →
        (sys.st.chaos_mode ≠ none ↔ sys.st.status ≠ "healthy")) := by
  intro hclaim
  have hview : (runEvents (initSys 0 "a" "b" "c") esC3).map controlView =
      some ("healthy", some "timeout", 0, []) := rfl
  obtain ⟨sys, hrun, hpair⟩ := Option.map_eq_some'.mp hview
  rw [controlView] at hpair
  simp only [Prod.mk.injEq] at hpair
  obtain ⟨hstatus, hchaos, -, hactive⟩ := hpair
  have hiff := hclaim sys ⟨0, "a", "b", "c", esC3, hrun⟩ hactive
  exact hiff.mp (by rw [hchaos]; exact fun hc => Option.noConfusion hc) hstatus

/-- C3 amended: in every state reachable without a reset command, chaosMode
is set whenever status ≠ healthy.  The converse direction of the original
claim is false (see the counterexample): chaosMode remains set after a
completed recovery, because only reset clears it. -/
theorem C3_chaos_mode_invariant (sys : Sys) (h : ReachableNoReset sys)
    (hst : sys.st.status ≠ "healthy") : sys.st.chaos_mode ≠ none := by
  obtain ⟨now, t1, t2, t3, es, hnr, hrun⟩ := h
  have hinv := runEvents_preserves es (initSys now t1 t2 t3) sys
    (initSys_inv now t1 t2 t3) hnr hrun
  intro hc
  exact hst (hinv.2 hc).1

/-- Witness for the amended C3 at the concrete state right after a
trigger. -/
theorem C3_chaos_mode_invariant_witness : sysTrig.st.chaos_mode ≠ none :=
  C3_chaos_mode_invariant sysTrig
    ⟨0, "a", "b", "c", esTrig, by decide, by decide⟩ (by decide)

end PaymentService
